import Mathlib

/-!
Shallow embedding of the lab-note evaluation core of
`eval/eval_lab_note_generation` (files `evaluator.py` and
`eval_analysis_data.py`): the outer-join merger, the identification and
classification classifiers, the summary aggregator and the zero-pruning
utility, together with theorems settling the specification claims.

Pandas cells that may hold NaN are modelled as `Option String`
(`none` = NaN/missing); Python float arithmetic on the small
confusion-matrix counts is modelled over `ℚ`.
-/

namespace LabNoteEval

/-- A row of the merged error table produced by `_process_errors_dataframes`
before the `Identification`/`Classification` columns are added.
`benchmark_class` is the DataFrame column named `Class`. -/
structure MergedRow where
  step : ℚ
  benchmark : Option String
  benchmark_class : Option String
  skill : Option String
  ai_response : Option String
  ai_class : Option String
  deriving DecidableEq

/-- `identify_error_type` from `evaluator.py` (lines 101-138): picks the
identification label from the four cells `Benchmark`, `AI Response`,
`AI Class`, `Class`; `pd.isna(benchmark)` is `benchmark = none`, and a
Python comparison of a NaN cell with a string literal is `False`, which
matches `Option.some`-equality against the literal. -/
def identify_error_type (row : MergedRow) : String :=
  if row.benchmark = none then
    if row.ai_class = some "Addition" then "Addition by model"
    else if row.benchmark_class = some "Addition" ∧ row.ai_class = some "N/A" then
      "False Negative"
    else "Unknown"
  else if row.benchmark = some "No Error" then
    if row.ai_response = some "No Error" then "No Error (Correctly Identified)"
    else if row.ai_response = some "Error" then "False Positive"
    else "Unknown"
  else if row.benchmark = some "Error" then
    if row.ai_response = some "Error" then "Error (Correctly Identified)"
    else if row.ai_response = some "No Error" then "False Negative"
    else "Unknown"
  else "Unknown"

/-- Python/pandas scalar equality between two possibly-NaN cells:
NaN compares unequal to everything, including NaN itself. -/
def pdEq : Option String → Option String → Bool
  | some a, some b => a == b
  | _, _ => false

/-- `classify_error_type` from `evaluator.py` (lines 141-159): reads the
`Identification`, `Class` and `AI Class` cells of the row. -/
def classify_error_type (identification : String)
    (benchmark_class ai_class : Option String) : String :=
  if identification = "Error (Correctly Identified)" then
    if pdEq benchmark_class ai_class then "correct" else "incorrect"
  else "N/A"

/-- A fully classified row: a merged row plus the derived `Identification`
and `Classification` columns. -/
structure ClassifiedRow where
  step : ℚ
  benchmark : Option String
  benchmark_class : Option String
  skill : Option String
  ai_response : Option String
  ai_class : Option String
  identification : String
  classification : String
  deriving DecidableEq

/-- The two `df.apply(..., axis=1)` passes of `_process_errors_dataframes`
(lines 295-296): add `Identification`, then `Classification`. -/
def classifyTable (rows : List MergedRow) : List ClassifiedRow :=
  rows.map fun r =>
    { step := r.step
      benchmark := r.benchmark
      benchmark_class := r.benchmark_class
      skill := r.skill
      ai_response := r.ai_response
      ai_class := r.ai_class
      identification := identify_error_type r
      classification :=
        classify_error_type (identify_error_type r) r.benchmark_class r.ai_class }

/-- The decision table of spec §4.2, written exactly as claim C1 states it:
evaluated top-to-bottom, first match wins, default `Unknown`. -/
def identifySpecTable (r : MergedRow) : String :=
  if r.benchmark = none ∧ r.ai_class = some "Addition" then "Addition by model"
  else if r.benchmark = none ∧ r.benchmark_class = some "Addition" ∧
      r.ai_class = some "N/A" then "False Negative"
  else if r.benchmark = some "No Error" ∧ r.ai_response = some "No Error" then
    "No Error (Correctly Identified)"
  else if r.benchmark = some "No Error" ∧ r.ai_response = some "Error" then
    "False Positive"
  else if r.benchmark = some "Error" ∧ r.ai_response = some "Error" then
    "Error (Correctly Identified)"
  else if r.benchmark = some "Error" ∧ r.ai_response = some "No Error" then
    "False Negative"
  else "Unknown"

/-- A row of the ground-truth (benchmark) error table, one entry of the
parsed `error_dict` (`Step`, `Benchmark`, `Class`, `Skill`). -/
structure BenchRow where
  step : ℚ
  benchmark : Option String
  benchmark_class : Option String
  skill : Option String
  deriving DecidableEq

/-- A row of the AI error table built from `ErrorExtraction.steps`
(`StepResult`: `step`, `ai_response`, `ai_class` — plain strings). -/
structure AiRow where
  step : ℚ
  ai_response : String
  ai_class : String
  deriving DecidableEq

/-- The pandas outer merge
`df_error_benchmark.merge(df_error_ai, on="Step", how="outer")` of
`_process_errors_dataframes` (line 293), modelled under the stated spec
precondition that step numbers are unique within each input side: each
ground-truth row is paired with its matching AI row when one exists, and the
unmatched AI rows follow.  Cells absent from a side are NaN (`none`).
The model covers only non-empty input sides, which is where the source
reaches the merge at all: with an empty AI list, line 290 raises
`ValueError` (a zero-column frame cannot take three column names), and with
an empty ground-truth list the merge raises `KeyError` on `Step`; theorems
about this definition therefore carry non-emptiness hypotheses. -/
def outer_merge (gt : List BenchRow) (ai : List AiRow) : List MergedRow :=
  (gt.map fun g =>
    match ai.find? (fun a => a.step == g.step) with
    | some a => { step := g.step, benchmark := g.benchmark,
                  benchmark_class := g.benchmark_class, skill := g.skill,
                  ai_response := some a.ai_response, ai_class := some a.ai_class }
    | none => { step := g.step, benchmark := g.benchmark,
                benchmark_class := g.benchmark_class, skill := g.skill,
                ai_response := none, ai_class := none })
  ++ ((ai.filter fun a => !(gt.any fun g => g.step == a.step)).map fun a =>
    { step := a.step, benchmark := none, benchmark_class := none, skill := none,
      ai_response := some a.ai_response, ai_class := some a.ai_class })

/-- `_process_errors_dataframes` (lines 284-298): outer-join the two error
tables, then add the two derived columns. -/
def process_errors_dataframes (gt : List BenchRow) (ai : List AiRow) :
    List ClassifiedRow :=
  classifyTable (outer_merge gt ai)

/-- `ERROR_TYPES_IDS` from `eval_analysis_data.py` (line 56). -/
def ERROR_TYPES_IDS : List String :=
  ["Omitted", "Error", "Addition", "Deviation", "Deviation & Error"]

/-- `SKILL_TYPES` from `eval_analysis_data.py` (lines 48-54). -/
def SKILL_TYPES : List String :=
  ["SpatialOrientation", "SpatialResolution", "GeneralKnowledge", "Fast",
   "ProteomicsKnowledge"]

/-- `df["Class"].value_counts().to_dict().get(cls, 0)` of `get_counts`:
the number of rows whose `Class` cell equals the given category (NaN cells
match no category). -/
def classCount (df : List ClassifiedRow) (cls : String) : ℕ :=
  (df.filter fun r => r.benchmark_class == some cls).length

/-- `len(df[(df["Class"] == class_val) & (df["Skill"] == skill_val)])`
of `get_counts`. -/
def classSkillCount (df : List ClassifiedRow) (cls skill : String) : ℕ :=
  (df.filter fun r =>
    r.benchmark_class == some cls && r.skill == some skill).length

/-- `get_counts` from `evaluator.py` (lines 162-190): the five per-category
counts, then the twenty-five per-category-per-skill counts, keyed by the
f-string patterns of the source (insertion order of the Python dict). -/
def get_counts (df : List ClassifiedRow) (pre : String) : List (String × ℚ) :=
  (ERROR_TYPES_IDS.map fun cls => (pre ++ " " ++ cls, (classCount df cls : ℚ)))
    ++ (ERROR_TYPES_IDS.flatMap fun cls => SKILL_TYPES.map fun skill =>
      (pre ++ " " ++ cls ++ " " ++ skill, (classSkillCount df cls skill : ℚ)))

/-- `len(df[df["Identification"] == label])`: count of rows carrying a given
identification label. -/
def identCount (df : List ClassifiedRow) (label : String) : ℕ :=
  (df.filter fun r => r.identification == label).length

/-- `tp` of `generate_error_summary` (line 212). -/
def tp (df : List ClassifiedRow) : ℕ :=
  identCount df "Error (Correctly Identified)"

/-- `tn` of `generate_error_summary` (line 213). -/
def tn (df : List ClassifiedRow) : ℕ :=
  identCount df "No Error (Correctly Identified)"

/-- `fp` of `generate_error_summary` (line 214). -/
def fp (df : List ClassifiedRow) : ℕ :=
  identCount df "False Positive"

/-- `fn` of `generate_error_summary` (line 215). -/
def fn (df : List ClassifiedRow) : ℕ :=
  identCount df "False Negative"

/-- `addition_by_model` of `generate_error_summary` (line 209). -/
def addition_by_model (df : List ClassifiedRow) : ℕ :=
  identCount df "Addition by model"

/-- Count of rows the identification classifier left `Unknown`; not computed
by the source aggregator, named by the confusion-matrix identity of the spec. -/
def unknownCount (df : List ClassifiedRow) : ℕ :=
  identCount df "Unknown"

/-- `total_evaluated_steps = len(df)` (line 208). -/
def total_evaluated_steps (df : List ClassifiedRow) : ℕ := df.length

/-- `correctly_classified_errors` of `generate_error_summary` (line 218). -/
def correctly_classified_errors (df : List ClassifiedRow) : ℕ :=
  (df.filter fun r => r.classification == "correct").length

/-- `precision = tp / (tp + fp) if (tp + fp) > 0 else 0` (line 220). -/
def precision (df : List ClassifiedRow) : ℚ :=
  if 0 < tp df + fp df then (tp df : ℚ) / ((tp df + fp df : ℕ) : ℚ) else 0

/-- `recall = tp / (tp + fn) if (tp + fn) > 0 else 0` (line 221). -/
def recallRate (df : List ClassifiedRow) : ℚ :=
  if 0 < tp df + fn df then (tp df : ℚ) / ((tp df + fn df : ℕ) : ℚ) else 0

/-- `specificity = tn / (tn + fp) if (tn + fp) > 0 else 0` (line 222). -/
def specificity (df : List ClassifiedRow) : ℚ :=
  if 0 < tn df + fp df then (tn df : ℚ) / ((tn df + fp df : ℕ) : ℚ) else 0

/-- `accuracy = (tp + tn) / (tp + tn + fp + fn) if ... > 0 else 0`
(line 223). -/
def accuracy (df : List ClassifiedRow) : ℚ :=
  if 0 < tp df + tn df + fp df + fn df then
    ((tp df + tn df : ℕ) : ℚ) / ((tp df + tn df + fp df + fn df : ℕ) : ℚ)
  else 0

/-- `f1_score = 2 * (precision * recall) / (precision + recall) if
(precision + recall) > 0 else 0` (lines 224-228). -/
def f1_score (df : List ClassifiedRow) : ℚ :=
  if 0 < precision df + recallRate df then
    2 * (precision df * recallRate df) / (precision df + recallRate df)
  else 0

/-- `balanced_accuracy = (recall + specificity) / 2` (line 229). -/
def balanced_accuracy (df : List ClassifiedRow) : ℚ :=
  (recallRate df + specificity df) / 2

/-- `classification_accuracy = correctly_classified_errors / tp if tp > 0
else 0` (line 230). -/
def classification_accuracy (df : List ClassifiedRow) : ℚ :=
  if 0 < tp df then (correctly_classified_errors df : ℚ) / (tp df : ℚ) else 0

/-- `"False Positive Rate": fp / (fp + tn) if (fp + tn) > 0 else 0`
(line 248). -/
def false_positive_rate (df : List ClassifiedRow) : ℚ :=
  if 0 < fp df + tn df then (fp df : ℚ) / ((fp df + tn df : ℕ) : ℚ) else 0

/-- `"False Negative Rate": fn / (tp + fn) if (tp + fn) > 0 else 0`
(line 249). -/
def false_negative_rate (df : List ClassifiedRow) : ℚ :=
  if 0 < tp df + fn df then (fn df : ℚ) / ((tp df + fn df : ℕ) : ℚ) else 0

/-- `"False Discovery Rate": fp / (tp + fp) if (tp + fp) > 0 else 0`
(line 250). -/
def false_discovery_rate (df : List ClassifiedRow) : ℚ :=
  if 0 < tp df + fp df then (fp df : ℚ) / ((tp df + fp df : ℕ) : ℚ) else 0

/-- `"False Omission Rate": fn / (tn + fn) if (tn + fn) > 0 else 0`
(line 251). -/
def false_omission_rate (df : List ClassifiedRow) : ℚ :=
  if 0 < tn df + fn df then (fn df : ℚ) / ((tn df + fn df : ℕ) : ℚ) else 0

/-- `"Negative Predictive Value": tn / (tn + fn) if (tn + fn) > 0 else 0`
(line 253). -/
def negative_predictive_value (df : List ClassifiedRow) : ℚ :=
  if 0 < tn df + fn df then (tn df : ℚ) / ((tn df + fn df : ℕ) : ℚ) else 0

/-- `generate_error_summary` from `evaluator.py` (lines 193-265): the flat
summary dictionary, modelled as an association list in the Python dict
insertion order.  All values are carried in `ℚ`. -/
def generate_error_summary (df : List ClassifiedRow) : List (String × ℚ) :=
  [("True Positives (TP) = Correct error identifications", (tp df : ℚ)),
   ("True Negatives (TN) = Correct no error identifications", (tn df : ℚ)),
   ("False Positives (fp)", (fp df : ℚ)),
   ("False Negatives (fn)", (fn df : ℚ)),
   ("Total steps evaluated", (total_evaluated_steps df : ℚ)),
   ("Steps evaluated minus added by AI",
     (total_evaluated_steps df : ℚ) - (addition_by_model df : ℚ)),
   ("Addition by model", (addition_by_model df : ℚ)),
   ("Errors evaluated", ((tp df + fn df : ℕ) : ℚ)),
   ("Classification Accuracy", classification_accuracy df),
   ("Accuracy", accuracy df),
   ("Precision (Positive Predictive Value)", precision df),
   ("Recall (Sensitivity, True Positive Rate)", recallRate df),
   ("Specificity (True Negative Rate)", specificity df),
   ("F1 Score", f1_score df),
   ("Balanced Accuracy", balanced_accuracy df),
   ("False Positive Rate", false_positive_rate df),
   ("False Negative Rate", false_negative_rate df),
   ("False Discovery Rate", false_discovery_rate df),
   ("False Omission Rate", false_omission_rate df),
   ("Positive Predictive Value", precision df),
   ("Negative Predictive Value", negative_predictive_value df),
   ("Total errors analyzed", ((tp df + fn df : ℕ) : ℚ)),
   ("Correctly classified errors", (correctly_classified_errors df : ℚ))]
  ++ get_counts
      (df.filter fun r => r.identification == "Error (Correctly Identified)")
      "Type"
  ++ get_counts
      (df.filter fun r => !(r.identification == "Addition by model"))
      "All Type"

/-- `MEAN_COLS` from `eval_analysis_data.py` (lines 18-32). -/
def MEAN_COLS : List String :=
  ["Classification Accuracy",
   "Accuracy",
   "Precision (Positive Predictive Value)",
   "Recall (Sensitivity, True Positive Rate)",
   "Specificity (True Negative Rate)",
   "F1 Score",
   "Balanced Accuracy",
   "False Positive Rate",
   "False Negative Rate",
   "False Discovery Rate",
   "False Omission Rate",
   "Positive Predictive Value",
   "Negative Predictive Value"]

/-- `PERFORMANCE_COLS` from `eval_analysis_data.py` (lines 34-46). -/
def PERFORMANCE_COLS : List String :=
  ["inputs_experiment_name",
   "replicate_num",
   "True Positives (TP) = Correct error identifications",
   "True Negatives (TN) = Correct no error identifications",
   "False Positives (FP)",
   "False Negatives (FN)",
   "Total steps evaluated",
   "Errors evaluated",
   "Total errors analyzed",
   "Correctly classified errors"]
  ++ MEAN_COLS

/-- Columns of the DataFrame built by `process_evaluation_data`
(lines 158-167): the two bookkeeping columns followed by the keys of the
summary dictionary of the run. -/
def analysisColumns (df : List ClassifiedRow) : List String :=
  "inputs_experiment_name" :: "replicate_num" ::
    (generate_error_summary df).map Prod.fst

/-- `existing_performance_cols = [col for col in PERFORMANCE_COLS if col in
df_with_summary.columns]` from `save_dataframe` (lines 200-202). -/
def existing_performance_cols (cols : List String) : List String :=
  PERFORMANCE_COLS.filter fun c => cols.contains c

/-- A Python value appearing in the nested summary structure handed to
`remove_zeros`: a number, a string, a boolean or a nested dict. -/
inductive JVal where
  | num (q : ℚ)
  | str (s : String)
  | bool (b : Bool)
  | dict (entries : List (String × JVal))

/-- Python `v == 0` for such a value: numbers equal to zero, and `False`
(Python `bool` is an `int` subclass, so `False == 0` is `True`); strings and
dicts never compare equal to `0`. -/
def isPyZero : JVal → Bool
  | .num q => q == 0
  | .bool b => b == false
  | _ => false

/-- Python `v == {}`: only an empty dict compares equal to `{}`. -/
def isEmptyDict : JVal → Bool
  | .dict [] => true
  | _ => false

mutual
/-- `remove_zeros` from `evaluator.py` (lines 268-281): non-dicts are
returned unchanged, dicts are rebuilt from their pruned entries. -/
def remove_zeros : JVal → JVal
  | .dict es => .dict (remove_zeros_entries es)
  | v => v

/-- The `for k, v in d.items()` loop body of `remove_zeros`: skip entries
with `v == 0`, recursively clean the rest, and keep an entry only when the
cleaned value is not the empty dict (`cleaned_v != {}`). -/
def remove_zeros_entries : List (String × JVal) → List (String × JVal)
  | [] => []
  | (k, v) :: rest =>
    if isPyZero v then remove_zeros_entries rest
    else if isEmptyDict (remove_zeros v) then remove_zeros_entries rest
    else (k, remove_zeros v) :: remove_zeros_entries rest
end

/-- Top-level keys of a pruned structure (for stating which keys survive). -/
def jKeys : JVal → List String
  | .dict es => es.map Prod.fst
  | _ => []

/-- A rate lying in the closed interval `[0, 1]`. -/
def Bounded01 (q : ℚ) : Prop := 0 ≤ q ∧ q ≤ 1

/-- Concrete merged row used to instantiate claim C1. -/
def exRowFP : MergedRow :=
  { step := 1, benchmark := some "No Error", benchmark_class := some "No Error",
    skill := some "Fast", ai_response := some "Error", ai_class := some "Error" }

/-- Concrete ground-truth row used for the claim C3 counterexample: its step
appears in no AI row. -/
def gtRowEx : BenchRow :=
  { step := 1, benchmark := some "Error", benchmark_class := some "Omitted",
    skill := some "Fast" }

/-- Concrete AI-only row used to instantiate claim C3. -/
def aiRowEx : AiRow := { step := 2, ai_response := "Error", ai_class := "Addition" }

/-- Concrete classified row (a correctly identified, correctly classified
error) used to instantiate the aggregator claims. -/
def exRowA : ClassifiedRow :=
  { step := 1, benchmark := some "Error", benchmark_class := some "Omitted",
    skill := some "Fast", ai_response := some "Error", ai_class := some "Omitted",
    identification := "Error (Correctly Identified)", classification := "correct" }

/-- Concrete classified row (a correctly identified no-error step) used to
instantiate the aggregator claims. -/
def exRowB : ClassifiedRow :=
  { step := 2, benchmark := some "No Error", benchmark_class := some "No Error",
    skill := none, ai_response := some "No Error", ai_class := some "N/A",
    identification := "No Error (Correctly Identified)", classification := "N/A" }

/-- The classified row that `classifyTable` produces from `exMergedECI`. -/
def exClassECI : ClassifiedRow :=
  { step := 3, benchmark := some "Error", benchmark_class := some "Omitted",
    skill := some "Fast", ai_response := some "Error", ai_class := some "Omitted",
    identification := "Error (Correctly Identified)",
    classification := "correct" }

/-- Concrete merged row whose identification is `Error (Correctly
Identified)`, used to instantiate claim C6. -/
def exMergedECI : MergedRow :=
  { step := 3, benchmark := some "Error", benchmark_class := some "Omitted",
    skill := some "Fast", ai_response := some "Error", ai_class := some "Omitted" }

theorem identify_eq_specTable (r : MergedRow) :
    identify_error_type r = identifySpecTable r := by
  unfold identify_error_type identifySpecTable
  rcases hb : r.benchmark with _ | b <;> (simp [hb]; try (split_ifs <;> simp_all))

theorem identify_reads_four_fields (r₁ r₂ : MergedRow)
    (hb : r₁.benchmark = r₂.benchmark)
    (hc : r₁.benchmark_class = r₂.benchmark_class)
    (hr : r₁.ai_response = r₂.ai_response)
    (ha : r₁.ai_class = r₂.ai_class) :
    identify_error_type r₁ = identify_error_type r₂ := by
  unfold identify_error_type
  rw [hb, hc, hr, ha]

/-- C1: the identification classifier is total, agrees with the
six-label decision table evaluated top-to-bottom with first match winning,
and reads only the four cells `Benchmark`, `Class`, `AI Response`,
`AI Class`. -/
theorem C1_identification_decision_table :
    (∀ r : MergedRow, identify_error_type r = identifySpecTable r) ∧
    (∀ r₁ r₂ : MergedRow, r₁.benchmark = r₂.benchmark →
      r₁.benchmark_class = r₂.benchmark_class →
      r₁.ai_response = r₂.ai_response → r₁.ai_class = r₂.ai_class →
      identify_error_type r₁ = identify_error_type r₂) :=
  ⟨identify_eq_specTable, identify_reads_four_fields⟩

/-- C1 witness: the decision table and the classifier evaluated at a
concrete false-positive row. -/
theorem C1_identification_decision_table_witness :
    identify_error_type exRowFP = identifySpecTable exRowFP ∧
    identify_error_type exRowFP = identify_error_type exRowFP ∧
    identify_error_type exRowFP = "False Positive" :=
  ⟨C1_identification_decision_table.1 exRowFP,
   C1_identification_decision_table.2 exRowFP exRowFP rfl rfl rfl rfl,
   rfl⟩

theorem classify_ne_NA_imp (i : String) (bc ac : Option String)
    (h : classify_error_type i bc ac ≠ "N/A") :
    i = "Error (Correctly Identified)" := by
  by_contra hne
  exact h (by unfold classify_error_type; rw [if_neg hne])

/-- C6: the classification classifier returns `correct` exactly on
correctly identified errors whose categories agree by exact string
equality, `incorrect` on correctly identified errors whose categories
differ, and `N/A` for every other identification; hence a non-`N/A`
classification forces identification `Error (Correctly Identified)`. -/
theorem C6_classification_contract :
    (∀ (s t : String),
      classify_error_type "Error (Correctly Identified)" (some s) (some t) =
        if s = t then "correct" else "incorrect") ∧
    (∀ (i : String) (bc ac : Option String), i ≠ "Error (Correctly Identified)" →
      classify_error_type i bc ac = "N/A") ∧
    (∀ (rows : List MergedRow), ∀ r ∈ classifyTable rows,
      r.classification ≠ "N/A" →
      r.identification = "Error (Correctly Identified)") := by
  refine ⟨fun s t => ?_, fun i bc ac h => ?_, fun rows r hr hne => ?_⟩
  · simp [classify_error_type, pdEq]
  · simp [classify_error_type, h]
  · simp only [classifyTable, List.mem_map] at hr
    obtain ⟨m, _, rfl⟩ := hr
    exact classify_ne_NA_imp _ _ _ hne

/-- C6 witness: the contract applied at concrete classes, and to the
concrete classified row of `exMergedECI`. -/
theorem C6_classification_contract_witness :
    classify_error_type "Error (Correctly Identified)" (some "Omitted")
      (some "Omitted") = "correct" ∧
    classify_error_type "Unknown" (some "Omitted") (some "Error") = "N/A" ∧
    exClassECI.identification = "Error (Correctly Identified)" :=
  ⟨(C6_classification_contract.1 "Omitted" "Omitted").trans (by simp),
   C6_classification_contract.2.1 "Unknown" (some "Omitted") (some "Error")
     (by decide),
   C6_classification_contract.2.2 [exMergedECI] exClassECI
     (List.mem_singleton.mpr rfl) (by decide)⟩

/-- C2: every guarded rate of `generate_error_summary` is exactly `0` when
its denominator is `0`; in particular `classification_accuracy` is `0`
when `TP = 0`. -/
theorem C2_zero_denominator_rates (df : List ClassifiedRow) :
    (tp df + fp df = 0 → precision df = 0) ∧
    (tp df + fn df = 0 → recallRate df = 0) ∧
    (tn df + fp df = 0 → specificity df = 0) ∧
    (tp df + tn df + fp df + fn df = 0 → accuracy df = 0) ∧
    (precision df + recallRate df = 0 → f1_score df = 0) ∧
    (tp df = 0 → classification_accuracy df = 0) ∧
    (fp df + tn df = 0 → false_positive_rate df = 0) ∧
    (tp df + fn df = 0 → false_negative_rate df = 0) ∧
    (tp df + fp df = 0 → false_discovery_rate df = 0) ∧
    (tn df + fn df = 0 → false_omission_rate df = 0) ∧
    (tn df + fn df = 0 → negative_predictive_value df = 0) := by
  refine ⟨fun h => ?_, fun h => ?_, fun h => ?_, fun h => ?_, fun h => ?_,
    fun h => ?_, fun h => ?_, fun h => ?_, fun h => ?_, fun h => ?_, fun h => ?_⟩
  · simp [precision, h]
  · simp [recallRate, h]
  · simp [specificity, h]
  · simp [accuracy, h]
  · unfold f1_score
    rw [if_neg (by rw [h]; exact lt_irrefl 0)]
  · simp [classification_accuracy, h]
  · simp [false_positive_rate, h]
  · simp [false_negative_rate, h]
  · simp [false_discovery_rate, h]
  · simp [false_omission_rate, h]
  · simp [negative_predictive_value, h]

/-- C2 witness: on the empty table every denominator is `0` and every
guarded rate evaluates to `0`. -/
theorem C2_zero_denominator_rates_witness :
    precision ([] : List ClassifiedRow) = 0 ∧
    recallRate ([] : List ClassifiedRow) = 0 ∧
    specificity ([] : List ClassifiedRow) = 0 ∧
    accuracy ([] : List ClassifiedRow) = 0 ∧
    f1_score ([] : List ClassifiedRow) = 0 ∧
    classification_accuracy ([] : List ClassifiedRow) = 0 ∧
    false_positive_rate ([] : List ClassifiedRow) = 0 ∧
    false_negative_rate ([] : List ClassifiedRow) = 0 ∧
    false_discovery_rate ([] : List ClassifiedRow) = 0 ∧
    false_omission_rate ([] : List ClassifiedRow) = 0 ∧
    negative_predictive_value ([] : List ClassifiedRow) = 0 :=
  ⟨(C2_zero_denominator_rates []).1 rfl,
   (C2_zero_denominator_rates []).2.1 rfl,
   (C2_zero_denominator_rates []).2.2.1 rfl,
   (C2_zero_denominator_rates []).2.2.2.1 rfl,
   (C2_zero_denominator_rates []).2.2.2.2.1
     (by simp [precision, recallRate, tp, fp, fn, identCount]),
   (C2_zero_denominator_rates []).2.2.2.2.2.1 rfl,
   (C2_zero_denominator_rates []).2.2.2.2.2.2.1 rfl,
   (C2_zero_denominator_rates []).2.2.2.2.2.2.2.1 rfl,
   (C2_zero_denominator_rates []).2.2.2.2.2.2.2.2.1 rfl,
   (C2_zero_denominator_rates []).2.2.2.2.2.2.2.2.2.1 rfl,
   (C2_zero_denominator_rates []).2.2.2.2.2.2.2.2.2.2 rfl⟩

theorem identify_mem_labels (r : MergedRow) :
    identify_error_type r = "Addition by model" ∨
    identify_error_type r = "False Negative" ∨
    identify_error_type r = "No Error (Correctly Identified)" ∨
    identify_error_type r = "False Positive" ∨
    identify_error_type r = "Error (Correctly Identified)" ∨
    identify_error_type r = "Unknown" := by
  unfold identify_error_type
  split_ifs <;> simp

theorem identCount_cons (x : ClassifiedRow) (l : List ClassifiedRow)
    (lab : String) :
    identCount (x :: l) lab =
      identCount l lab + if x.identification = lab then 1 else 0 := by
  simp only [identCount, ← List.countP_eq_length_filter, List.countP_cons]
  congr 1
  simp [beq_iff_eq]

/-- C5: on any table classified by the identification classifier, the six
label counts partition the rows:
`TP + TN + FP + FN + addition_by_model + Unknown = total_evaluated_steps`. -/
theorem C5_confusion_matrix_identity (rows : List MergedRow) :
    tp (classifyTable rows) + tn (classifyTable rows) + fp (classifyTable rows) +
      fn (classifyTable rows) + addition_by_model (classifyTable rows) +
      unknownCount (classifyTable rows) =
      total_evaluated_steps (classifyTable rows) := by
  induction rows with
  | nil => rfl
  | cons r rest ih =>
    simp only [classifyTable, List.map_cons] at ih ⊢
    simp only [tp, tn, fp, fn, addition_by_model, unknownCount,
      total_evaluated_steps, identCount_cons, List.length_cons,
      List.length_map] at ih ⊢
    rcases identify_mem_labels r with h | h | h | h | h | h <;> simp [h] <;> omega

theorem guardedRatio_bounds (a b : ℕ) (hab : a ≤ b) :
    Bounded01 (if 0 < b then (a : ℚ) / (b : ℚ) else 0) := by
  constructor
  · split_ifs with h
    · positivity
    · exact le_refl 0
  · split_ifs with h
    · rw [div_le_one (by exact_mod_cast h)]
      exact_mod_cast hab
    · exact zero_le_one

theorem precision_bounds (df : List ClassifiedRow) : Bounded01 (precision df) := by
  unfold precision
  exact guardedRatio_bounds _ _ (Nat.le_add_right _ _)

theorem recallRate_bounds (df : List ClassifiedRow) :
    Bounded01 (recallRate df) := by
  unfold recallRate
  exact guardedRatio_bounds _ _ (Nat.le_add_right _ _)

theorem specificity_bounds (df : List ClassifiedRow) :
    Bounded01 (specificity df) := by
  unfold specificity
  exact guardedRatio_bounds _ _ (Nat.le_add_right _ _)

theorem accuracy_bounds (df : List ClassifiedRow) : Bounded01 (accuracy df) := by
  unfold accuracy
  exact guardedRatio_bounds _ _ (by omega)

theorem fpr_bounds (df : List ClassifiedRow) :
    Bounded01 (false_positive_rate df) := by
  unfold false_positive_rate
  exact guardedRatio_bounds _ _ (Nat.le_add_right _ _)

theorem fnr_bounds (df : List ClassifiedRow) :
    Bounded01 (false_negative_rate df) := by
  unfold false_negative_rate
  exact guardedRatio_bounds _ _ (Nat.le_add_left _ _)

theorem fdr_bounds (df : List ClassifiedRow) :
    Bounded01 (false_discovery_rate df) := by
  unfold false_discovery_rate
  exact guardedRatio_bounds _ _ (Nat.le_add_left _ _)

theorem for_bounds (df : List ClassifiedRow) :
    Bounded01 (false_omission_rate df) := by
  unfold false_omission_rate
  exact guardedRatio_bounds _ _ (Nat.le_add_left _ _)

theorem npv_bounds (df : List ClassifiedRow) :
    Bounded01 (negative_predictive_value df) := by
  unfold negative_predictive_value
  exact guardedRatio_bounds _ _ (Nat.le_add_right _ _)

theorem f1_bounds (df : List ClassifiedRow) : Bounded01 (f1_score df) := by
  obtain ⟨hp0, hp1⟩ := precision_bounds df
  obtain ⟨hr0, hr1⟩ := recallRate_bounds df
  unfold f1_score
  constructor
  · split_ifs with h
    · exact div_nonneg (by nlinarith [mul_nonneg hp0 hr0]) h.le
    · exact le_refl 0
  · split_ifs with h
    · rw [div_le_one h]
      nlinarith [mul_nonneg (sub_nonneg.mpr hp1) hr0,
        mul_nonneg (sub_nonneg.mpr hr1) hp0]
    · exact zero_le_one

theorem balanced_accuracy_bounds (df : List ClassifiedRow) :
    Bounded01 (balanced_accuracy df) := by
  obtain ⟨hr0, hr1⟩ := recallRate_bounds df
  obtain ⟨hs0, hs1⟩ := specificity_bounds df
  unfold balanced_accuracy
  constructor
  · linarith
  · linarith

theorem correct_le_tp (rows : List MergedRow) :
    correctly_classified_errors (classifyTable rows) ≤ tp (classifyTable rows) := by
  simp only [correctly_classified_errors, tp, identCount,
    ← List.countP_eq_length_filter]
  refine List.countP_mono_left fun x hx h => ?_
  simp only [classifyTable, List.mem_map] at hx
  obtain ⟨m, _, rfl⟩ := hx
  simp only [beq_iff_eq] at h ⊢
  exact classify_ne_NA_imp _ _ _ (by rw [h]; decide)

/-- C7: on any table produced by the two classifiers, every derived rate of
the summary (precision, recall, specificity, accuracy, F1, balanced
accuracy, classification accuracy, the four false rates, and the positive
and negative predictive values — the positive one being the `precision`
alias) lies in the closed interval `[0, 1]`. -/
theorem C7_rate_bounds (rows : List MergedRow) :
    Bounded01 (precision (classifyTable rows)) ∧
    Bounded01 (recallRate (classifyTable rows)) ∧
    Bounded01 (specificity (classifyTable rows)) ∧
    Bounded01 (accuracy (classifyTable rows)) ∧
    Bounded01 (f1_score (classifyTable rows)) ∧
    Bounded01 (balanced_accuracy (classifyTable rows)) ∧
    Bounded01 (classification_accuracy (classifyTable rows)) ∧
    Bounded01 (false_positive_rate (classifyTable rows)) ∧
    Bounded01 (false_negative_rate (classifyTable rows)) ∧
    Bounded01 (false_discovery_rate (classifyTable rows)) ∧
    Bounded01 (false_omission_rate (classifyTable rows)) ∧
    Bounded01 (negative_predictive_value (classifyTable rows)) := by
  refine ⟨precision_bounds _, recallRate_bounds _, specificity_bounds _,
    accuracy_bounds _, f1_bounds _, balanced_accuracy_bounds _, ?_,
    fpr_bounds _, fnr_bounds _, fdr_bounds _, for_bounds _, npv_bounds _⟩
  unfold classification_accuracy
  exact guardedRatio_bounds _ _ (correct_le_tp rows)

/-- C9: the aggregator is a pure reduction with no ordering sensitivity —
permuting the rows of the classified table leaves the whole summary (counts and
derived rates) unchanged; determinism is the reflexive case. -/
theorem C9_aggregator_order_insensitive (df df' : List ClassifiedRow)
    (h : df.Perm df') :
    generate_error_summary df = generate_error_summary df' := by
  have hc : ∀ p : ClassifiedRow → Bool, df.countP p = df'.countP p :=
    fun p => h.countP_eq p
  have hl : df.length = df'.length := h.length_eq
  simp only [generate_error_summary, get_counts, tp, tn, fp, fn,
    addition_by_model, total_evaluated_steps, correctly_classified_errors,
    classCount, classSkillCount, identCount, precision, recallRate,
    specificity, accuracy, f1_score, balanced_accuracy,
    classification_accuracy, false_positive_rate, false_negative_rate,
    false_discovery_rate, false_omission_rate, negative_predictive_value,
    ← List.countP_eq_length_filter, List.countP_filter, hc, hl]

/-- C9 witness: the summary of a concrete two-row table is unchanged by
swapping its rows. -/
theorem C9_aggregator_order_insensitive_witness :
    generate_error_summary [exRowA, exRowB] =
      generate_error_summary [exRowB, exRowA] :=
  C9_aggregator_order_insensitive _ _ (List.Perm.swap exRowB exRowA [])

theorem summary_keys_const (df : List ClassifiedRow) :
    (generate_error_summary df).map Prod.fst =
      (generate_error_summary []).map Prod.fst := rfl

/-- C10: the aggregator emits the FP and FN counts only under the
lowercase-suffixed keys `False Positives (fp)` / `False Negatives (fn)`,
never under `False Positives (FP)` / `False Negatives (FN)`; since
`PERFORMANCE_COLS` names only the uppercase variants, neither count key is
ever among the columns selected for the performance-metrics report. -/
theorem C10_fp_fn_key_mismatch (df : List ClassifiedRow) :
    "False Positives (fp)" ∈ (generate_error_summary df).map Prod.fst ∧
    "False Negatives (fn)" ∈ (generate_error_summary df).map Prod.fst ∧
    "False Positives (FP)" ∉ (generate_error_summary df).map Prod.fst ∧
    "False Negatives (FN)" ∉ (generate_error_summary df).map Prod.fst ∧
    "False Positives (FP)" ∈ PERFORMANCE_COLS ∧
    "False Negatives (FN)" ∈ PERFORMANCE_COLS ∧
    "False Positives (fp)" ∉ existing_performance_cols (analysisColumns df) ∧
    "False Negatives (fn)" ∉ existing_performance_cols (analysisColumns df) ∧
    "False Positives (FP)" ∉ existing_performance_cols (analysisColumns df) ∧
    "False Negatives (FN)" ∉ existing_performance_cols (analysisColumns df) := by
  have h1 : (generate_error_summary df).map Prod.fst =
      (generate_error_summary []).map Prod.fst := summary_keys_const df
  have h2 : existing_performance_cols (analysisColumns df) =
      existing_performance_cols (analysisColumns []) := by
    unfold existing_performance_cols analysisColumns
    rw [h1]
  rw [h1, h2]
  decide

theorem outer_merge_steps (gt : List BenchRow) (ai : List AiRow) :
    (outer_merge gt ai).map MergedRow.step =
      gt.map BenchRow.step ++
        ((ai.filter fun a => !(gt.any fun g => g.step == a.step)).map
          AiRow.step) := by
  unfold outer_merge
  rw [List.map_append, List.map_map, List.map_map]
  congr 1
  refine List.map_congr_left fun g _ => ?_
  rcases h : ai.find? (fun a => a.step == g.step) with _ | a <;>
    simp [Function.comp, h]

/-- C3 counterexample: merging a ground-truth list over step 1 with a
non-empty AI list over the disjoint step 2 leaves the `AI Response` and
`AI Class` cells of the ground-truth-only row NaN (`none`), not the string
`"N/A"` the claim asserts. -/
theorem C3_gt_only_rows_counterexample :
    outer_merge [gtRowEx] [aiRowEx] =
      [{ step := 1, benchmark := some "Error", benchmark_class := some "Omitted",
         skill := some "Fast", ai_response := none, ai_class := none },
       { step := 2, benchmark := none, benchmark_class := none, skill := none,
         ai_response := some "Error", ai_class := some "Addition" }] ∧
    ¬ (({ step := 1, benchmark := some "Error",
          benchmark_class := some "Omitted", skill := some "Fast",
          ai_response := none, ai_class := none } : MergedRow).ai_response =
        some "N/A") :=
  ⟨rfl, by decide⟩

/-- C3 amended: for non-empty input sides (with an empty side the source
raises before producing any table) and under the no-duplicate-steps
precondition, the merged table carries each step of either input exactly
once (its step column is duplicate-free and ranges over the union), rows
whose step is absent from the AI list have `ai_response` and `ai_class`
missing (`none`, i.e. NaN — not the string `"N/A"`), and rows whose step is
absent from the ground-truth list have `benchmark` and `benchmark_class`
missing. -/
theorem C3_outer_join_amended (gt : List BenchRow) (ai : List AiRow)
    (_hgt0 : gt ≠ []) (_hai0 : ai ≠ [])
    (hgt : (gt.map BenchRow.step).Nodup) (hai : (ai.map AiRow.step).Nodup) :
    ((outer_merge gt ai).map MergedRow.step).Nodup ∧
    (∀ s : ℚ, s ∈ (outer_merge gt ai).map MergedRow.step ↔
      s ∈ gt.map BenchRow.step ∨ s ∈ ai.map AiRow.step) ∧
    (∀ r ∈ outer_merge gt ai, r.step ∉ ai.map AiRow.step →
      r.ai_response = none ∧ r.ai_class = none) ∧
    (∀ r ∈ outer_merge gt ai, r.step ∉ gt.map BenchRow.step →
      r.benchmark = none ∧ r.benchmark_class = none) := by
  refine ⟨?_, ?_, ?_, ?_⟩
  · rw [outer_merge_steps]
    refine List.Nodup.append hgt
      (((List.filter_sublist ai).map AiRow.step).nodup hai) ?_
    intro s hs₁ hs₂
    obtain ⟨a, ha, rfl⟩ := List.mem_map.mp hs₂
    have hcond := (List.mem_filter.mp ha).2
    simp only [Bool.not_eq_eq_eq_not, Bool.not_true, List.any_eq_false,
      beq_iff_eq] at hcond
    obtain ⟨g, hg, hgs⟩ := List.mem_map.mp hs₁
    exact hcond g hg hgs
  · intro s
    rw [outer_merge_steps, List.mem_append]
    constructor
    · rintro (h | h)
      · exact Or.inl h
      · obtain ⟨a, ha, rfl⟩ := List.mem_map.mp h
        exact Or.inr (List.mem_map.mpr ⟨a, (List.mem_filter.mp ha).1, rfl⟩)
    · rintro (h | h)
      · exact Or.inl h
      · by_cases hs : s ∈ gt.map BenchRow.step
        · exact Or.inl hs
        · obtain ⟨a, ha, rfl⟩ := List.mem_map.mp h
          refine Or.inr (List.mem_map.mpr ⟨a, List.mem_filter.mpr ⟨ha, ?_⟩, rfl⟩)
          simp only [Bool.not_eq_eq_eq_not, Bool.not_true, List.any_eq_false,
            beq_iff_eq]
          intro g hg hgs
          exact hs (List.mem_map.mpr ⟨g, hg, hgs⟩)
  · intro r hr hnotin
    unfold outer_merge at hr
    rcases List.mem_append.mp hr with h | h
    · obtain ⟨g, hg, rfl⟩ := List.mem_map.mp h
      rcases hfind : ai.find? (fun a => a.step == g.step) with _ | a
      · simp [hfind]
      · exfalso
        simp only [hfind] at hnotin
        have ha := List.mem_of_find?_eq_some hfind
        have heq := List.find?_some hfind
        simp only [beq_iff_eq] at heq
        exact hnotin (List.mem_map.mpr ⟨a, ha, heq⟩)
    · exfalso
      obtain ⟨a, ha, rfl⟩ := List.mem_map.mp h
      exact hnotin (List.mem_map.mpr ⟨a, (List.mem_filter.mp ha).1, rfl⟩)
  · intro r hr hnotin
    unfold outer_merge at hr
    rcases List.mem_append.mp hr with h | h
    · exfalso
      obtain ⟨g, hg, rfl⟩ := List.mem_map.mp h
      rcases hfind : ai.find? (fun a => a.step == g.step) with _ | a <;>
        simp only [hfind] at hnotin <;>
        exact hnotin (List.mem_map.mpr ⟨g, hg, rfl⟩)
    · obtain ⟨a, ha, rfl⟩ := List.mem_map.mp h
      exact ⟨rfl, rfl⟩

/-- C3 witness: the amended outer-join properties instantiated on a
concrete one-row ground truth and a disjoint one-row AI list. -/
theorem C3_outer_join_amended_witness :
    ((outer_merge [gtRowEx] [aiRowEx]).map MergedRow.step).Nodup ∧
    ((2 : ℚ) ∈ (outer_merge [gtRowEx] [aiRowEx]).map MergedRow.step ↔
      (2 : ℚ) ∈ [gtRowEx].map BenchRow.step ∨
        (2 : ℚ) ∈ [aiRowEx].map AiRow.step) :=
  ⟨(C3_outer_join_amended [gtRowEx] [aiRowEx] (List.cons_ne_nil _ _)
      (List.cons_ne_nil _ _) (by decide) (by decide)).1,
   (C3_outer_join_amended [gtRowEx] [aiRowEx] (List.cons_ne_nil _ _)
      (List.cons_ne_nil _ _) (by decide) (by decide)).2.1 2⟩

theorem isPyZero_remove_zeros (v : JVal) :
    isPyZero (remove_zeros v) = isPyZero v := by
  cases v <;> simp [remove_zeros, isPyZero]

theorem remove_zeros_entries_eq (es : List (String × JVal)) :
    remove_zeros_entries es =
      (es.filter fun kv =>
        !isPyZero kv.2 && !isEmptyDict (remove_zeros kv.2)).map
        fun kv => (kv.1, remove_zeros kv.2) := by
  induction es with
  | nil => simp [remove_zeros_entries]
  | cons kv rest ih =>
    obtain ⟨k, v⟩ := kv
    cases h1 : isPyZero v with
    | true => simp [remove_zeros_entries, List.filter_cons, h1, ih]
    | false =>
      cases h2 : isEmptyDict (remove_zeros v) with
      | true => simp [remove_zeros_entries, List.filter_cons, h1, h2, ih]
      | false => simp [remove_zeros_entries, List.filter_cons, h1, h2, ih]

mutual
theorem remove_zeros_idem (v : JVal) :
    remove_zeros (remove_zeros v) = remove_zeros v := by
  cases v with
  | num q => simp [remove_zeros]
  | str s => simp [remove_zeros]
  | bool b => simp [remove_zeros]
  | dict es => simp [remove_zeros, remove_zeros_entries_idem es]

theorem remove_zeros_entries_idem (es : List (String × JVal)) :
    remove_zeros_entries (remove_zeros_entries es) =
      remove_zeros_entries es := by
  match es with
  | [] => simp [remove_zeros_entries]
  | (k, v) :: rest =>
    cases h1 : isPyZero v with
    | true => simp [remove_zeros_entries, h1, remove_zeros_entries_idem rest]
    | false =>
      cases h2 : isEmptyDict (remove_zeros v) with
      | true => simp [remove_zeros_entries, h1, h2, remove_zeros_entries_idem rest]
      | false =>
        have hv := remove_zeros_idem v
        simp [remove_zeros_entries, h1, h2, hv, isPyZero_remove_zeros,
          remove_zeros_entries_idem rest]
end

theorem remove_zeros_eq_bool {v : JVal} {b : Bool}
    (h : remove_zeros v = JVal.bool b) : v = JVal.bool b := by
  cases v with
  | num q => simp [remove_zeros] at h
  | str s => simp [remove_zeros] at h
  | bool c => simpa [remove_zeros] using h
  | dict es => simp [remove_zeros] at h

/-- C8: the zero-pruning utility is idempotent, and the entries it keeps
are exactly those whose value neither compares equal to Python `0` nor
prunes to an empty dict — so no other key is ever removed. -/
theorem C8_prune_idempotent_and_exact :
    (∀ v : JVal, remove_zeros (remove_zeros v) = remove_zeros v) ∧
    (∀ es : List (String × JVal),
      remove_zeros_entries es =
        (es.filter fun kv =>
          !isPyZero kv.2 && !isEmptyDict (remove_zeros kv.2)).map
          fun kv => (kv.1, remove_zeros kv.2)) :=
  ⟨remove_zeros_idem, remove_zeros_entries_eq⟩

/-- C4 counterexample: Python `bool` is an `int` subclass, so
`False == 0` is `True` and `remove_zeros` prunes a key holding `False`,
contradicting the claim that `False` is kept. -/
theorem C4_false_pruned_counterexample :
    remove_zeros (JVal.dict [("k", JVal.bool false)]) = JVal.dict [] ∧
    ¬ ("k" ∈ jKeys (remove_zeros (JVal.dict [("k", JVal.bool false)]))) := by
  constructor
  · simp [remove_zeros, remove_zeros_entries, isPyZero]
  · simp [remove_zeros, remove_zeros_entries, isPyZero, jKeys]

/-- C4 amended: keys with empty-string values are kept, and more generally
every key whose value neither compares equal to Python `0` nor prunes to an
empty dict is kept — but a key holding `False` is always removed, because
Python `False == 0` is `True`. -/
theorem C4_falsy_values_amended :
    (∀ (es : List (String × JVal)) (k : String) (s : String),
      (k, JVal.str s) ∈ es → (k, JVal.str s) ∈ remove_zeros_entries es) ∧
    (∀ (es : List (String × JVal)) (k : String),
      (k, JVal.bool false) ∉ remove_zeros_entries es) ∧
    (∀ (es : List (String × JVal)) (k : String) (v : JVal),
      (k, v) ∈ es → isPyZero v = false →
      isEmptyDict (remove_zeros v) = false →
      (k, remove_zeros v) ∈ remove_zeros_entries es) := by
  have hkeep : ∀ (es : List (String × JVal)) (k : String) (v : JVal),
      (k, v) ∈ es → isPyZero v = false →
      isEmptyDict (remove_zeros v) = false →
      (k, remove_zeros v) ∈ remove_zeros_entries es := by
    intro es k v hmem hz he
    rw [remove_zeros_entries_eq]
    exact List.mem_map.mpr
      ⟨(k, v), List.mem_filter.mpr ⟨hmem, by simp [hz, he]⟩, rfl⟩
  refine ⟨fun es k s hmem => ?_, fun es k hmem => ?_, hkeep⟩
  · exact hkeep es k (JVal.str s) hmem rfl rfl
  · rw [remove_zeros_entries_eq] at hmem
    obtain ⟨⟨k2, v⟩, hv, heq⟩ := List.mem_map.mp hmem
    obtain ⟨-, hcond⟩ := List.mem_filter.mp hv
    simp only [Prod.mk.injEq] at heq
    have hvb : v = JVal.bool false := remove_zeros_eq_bool heq.2
    rw [hvb] at hcond
    simp [isPyZero] at hcond

/-- C4 witness: an empty-string value survives pruning, a `False` value
does not. -/
theorem C4_falsy_values_amended_witness :
    ("a", JVal.str "") ∈ remove_zeros_entries [("a", JVal.str "")] ∧
    ("k", JVal.bool false) ∉ remove_zeros_entries [("k", JVal.bool false)] :=
  ⟨C4_falsy_values_amended.1 [("a", JVal.str "")] "a" ""
     (List.mem_singleton.mpr rfl),
   C4_falsy_values_amended.2.1 [("k", JVal.bool false)] "k"⟩

end LabNoteEval
